import Mathlib

/-!
Verification of the vulnerability feature-engineering and scoring pipeline
of the meta-classificador repository.

The pandas/numpy code is shallowly embedded as follows.  A table cell is an
`Option Val`: `none` models a float NaN / missing value, `Val.num q` a finite
float (modelled exactly as a rational), `Val.pinf`/`Val.ninf` the two IEEE
infinities and `Val.str s` an object (string) cell.  A `DataFrame` is a list
of named columns, each carrying the cells of that column plus a `numeric`
dtype flag (used by `select_dtypes`).  Column-wise pandas operations become
`List.map`/`List.zipWith` of the corresponding cell operation; NaN-producing
float arithmetic (division by zero, `inf - inf`, `0 * inf`, ...) is modelled
case by case on `Val`.  The batch standard deviation calls `numpy` square
root; the square root on positive rationals is kept as an explicit function
parameter `sqrtf : ℚ → ℚ` of the scorer (the claims only rely on
`sqrtf 0 = 0`, which every real square root satisfies, and on the NaN/zero
propagation that is modelled exactly).
-/

/-- A scalar value held by a table cell: a finite float (exact rational),
one of the two infinities, or an object/string value.  A float NaN (equally
a missing value) is modelled as `none` at the `Cell` level. -/
inductive Val where
  | num (q : ℚ)
  | pinf
  | ninf
  | str (s : String)
deriving DecidableEq, Repr

/-- A table cell; `none` is NaN / null. -/
abbrev Cell := Option Val

/-- IEEE-style addition on scalar values; `none` is NaN.
Strings do not occur in arithmetic in the embedded pipeline. -/
def vAdd : Val → Val → Cell
  | .num a, .num b => some (.num (a + b))
  | .num _, .pinf => some .pinf
  | .num _, .ninf => some .ninf
  | .pinf, .num _ => some .pinf
  | .ninf, .num _ => some .ninf
  | .pinf, .pinf => some .pinf
  | .ninf, .ninf => some .ninf
  | _, _ => none

/-- IEEE-style subtraction on scalar values. -/
def vSub : Val → Val → Cell
  | .num a, .num b => some (.num (a - b))
  | .num _, .pinf => some .ninf
  | .num _, .ninf => some .pinf
  | .pinf, .num _ => some .pinf
  | .ninf, .num _ => some .ninf
  | .pinf, .ninf => some .pinf
  | .ninf, .pinf => some .ninf
  | _, _ => none

/-- IEEE-style multiplication on scalar values (`0 * inf = NaN`). -/
def vMul : Val → Val → Cell
  | .num a, .num b => some (.num (a * b))
  | .num a, .pinf => if 0 < a then some .pinf else if a < 0 then some .ninf else none
  | .num a, .ninf => if 0 < a then some .ninf else if a < 0 then some .pinf else none
  | .pinf, .num b => if 0 < b then some .pinf else if b < 0 then some .ninf else none
  | .ninf, .num b => if 0 < b then some .ninf else if b < 0 then some .pinf else none
  | .pinf, .pinf => some .pinf
  | .pinf, .ninf => some .ninf
  | .ninf, .pinf => some .ninf
  | .ninf, .ninf => some .pinf
  | _, _ => none

/-- IEEE-style division on scalar values: a nonzero finite number divided by
zero gives a signed infinity, `0 / 0` gives NaN, finite over infinite gives
zero. -/
def vDiv : Val → Val → Cell
  | .num a, .num b =>
      if b = 0 then (if 0 < a then some .pinf else if a < 0 then some .ninf else none)
      else some (.num (a / b))
  | .num _, .pinf => some (.num 0)
  | .num _, .ninf => some (.num 0)
  | .pinf, .num b => if b < 0 then some .ninf else some .pinf
  | .ninf, .num b => if b < 0 then some .pinf else some .ninf
  | _, _ => none

/-- Cell addition: NaN propagates. -/
def cAdd : Cell → Cell → Cell
  | some a, some b => vAdd a b
  | _, _ => none

/-- Cell subtraction: NaN propagates. -/
def cSub : Cell → Cell → Cell
  | some a, some b => vSub a b
  | _, _ => none

/-- Cell multiplication: NaN propagates. -/
def cMul : Cell → Cell → Cell
  | some a, some b => vMul a b
  | _, _ => none

/-- Cell division: NaN propagates. -/
def cDiv : Cell → Cell → Cell
  | some a, some b => vDiv a b
  | _, _ => none

/-- Python comparison `cell < q` as pandas evaluates it on a numeric column:
NaN compares as `False`; `-inf < q` is `True`. -/
def cLtQ (c : Cell) (q : ℚ) : Bool :=
  match c with
  | some (.num a) => decide (a < q)
  | some .ninf => true
  | _ => false

/-- Python comparison `cell > q`; NaN compares as `False`. -/
def cGtQ (c : Cell) (q : ℚ) : Bool :=
  match c with
  | some (.num a) => decide (q < a)
  | some .pinf => true
  | _ => false

/-- Python comparison `cell <= q`; NaN compares as `False`. -/
def cLeQ (c : Cell) (q : ℚ) : Bool :=
  match c with
  | some (.num a) => decide (a ≤ q)
  | some .ninf => true
  | _ => false

/-- Embedding: `bool.astype(int)` applied to one comparison result. -/
def boolCell (b : Bool) : Cell :=
  some (.num (if b then 1 else 0))

/-- Bitwise `&` of two integer cells (the pipeline only applies it to the
0/1 flag columns `acesso_agua` and `acesso_esgoto`).  Non-integer operands
do not support `&` in pandas and are modelled as null. -/
def cAnd : Cell → Cell → Cell
  | some (.num a), some (.num b) =>
      if a.den = 1 ∧ b.den = 1 then some (.num ((Int.land a.num b.num : ℤ) : ℚ)) else none
  | _, _ => none

/-- Truncation toward zero, the semantics of `astype(int)` on a finite
float. -/
def truncQ (q : ℚ) : ℤ :=
  if 0 ≤ q then ⌊q⌋ else ⌈q⌉

/-- Embedding: `astype(int)` on a cell.  NaN/inf/object cells cannot be cast
(numpy raises there; the cast is only ever applied after `fillna`, so the
null outcome is unreachable in the embedded pipeline). -/
def cAstypeInt : Cell → Cell
  | some (.num q) => some (.num (truncQ q))
  | _ => none

/-- Embedding: `fillna(v)` on one cell. -/
def cFillCell (v : Cell) : Cell → Cell
  | none => v
  | some w => some w

/-- Embedding: `replace(a, b)` on one cell. -/
def cReplace (a b : Val) (c : Cell) : Cell :=
  if c = some a then some b else c

/-- Embedding: `replace([inf, -inf], 0)` on one cell. -/
def cReplaceInfZero : Cell → Cell
  | some .pinf => some (.num 0)
  | some .ninf => some (.num 0)
  | c => c

/-- Embedding: `fillna(v)` over a whole column. -/
def fillColWith (v : Cell) (cs : List Cell) : List Cell :=
  cs.map (cFillCell v)

/-- One column of a DataFrame: its name, whether its dtype is numeric
(`select_dtypes(include=[np.number])` keeps it), and its cells. -/
structure Column where
  name : String
  numeric : Bool
  cells : List Cell
deriving DecidableEq, Repr

/-- A pandas DataFrame, modelled as its list of columns. -/
structure DataFrame where
  cols : List Column
deriving DecidableEq, Repr

/-- Embedding: `name in df.columns`. -/
def DataFrame.hasCol (df : DataFrame) (n : String) : Bool :=
  df.cols.any (fun c => c.name == n)

/-- Embedding: `df[name]`, `none` modelling the `KeyError` raised on a missing
column. -/
def DataFrame.getCol? (df : DataFrame) (n : String) : Option (List Cell) :=
  (df.cols.find? (fun c => c.name == n)).map (·.cells)

/-- Number of rows (pandas keeps all columns the same length). -/
def DataFrame.nrows (df : DataFrame) : ℕ :=
  ((df.cols.head?).map (fun c => c.cells.length)).getD 0

/-- Column assignment `df[name] = cells`: replaces the column in place if
the name exists, otherwise appends it. -/
def DataFrame.setCol (df : DataFrame) (n : String) (numeric : Bool)
    (cs : List Cell) : DataFrame :=
  if df.hasCol n then
    ⟨df.cols.map (fun c => if c.name == n then { c with numeric := numeric, cells := cs } else c)⟩
  else
    ⟨df.cols ++ [⟨n, numeric, cs⟩]⟩

/-- Embedding: `df.copy()`: in value semantics a deep copy is the identity. -/
def DataFrame.copy (df : DataFrame) : DataFrame := df

/-- All columns have the row count: the well-formedness every real pandas
frame satisfies. -/
def DataFrame.alignedB (df : DataFrame) : Bool :=
  df.cols.all (fun c => c.cells.length == df.nrows)

/-- A constant (scalar-broadcast) column of `n` rows. -/
def scalarCol (n : ℕ) (v : Val) : List Cell :=
  List.replicate n (some v)

/-!  ## Tier Classifier (pd.cut at lines 272-277 of preprocessamento.py)

`pd.cut(score, bins=[-inf, -0.5, 0, 0.5, inf], labels=[...])` with the
default right-closed intervals assigns a finite score `s` the first bin
`(left, right]` containing it. -/

/-- The Tier Classifier on a finite score, embedding the right-closed
binning of `pd.cut` with cut points `-0.5, 0, 0.5`. -/
def classificarNivel (s : ℚ) : String :=
  if s ≤ -1/2 then "Baixa"
  else if s ≤ 0 then "Média"
  else if s ≤ 1/2 then "Alta"
  else "Muito Alta"

/-- Position of a tier label in the ordered label list
`['Baixa', 'Média', 'Alta', 'Muito Alta']`. -/
def nivelIndex (l : String) : ℕ :=
  if l = "Baixa" then 0
  else if l = "Média" then 1
  else if l = "Alta" then 2
  else 3

/-- Embedding: `pd.cut` applied to one score cell: NaN is left uncategorised, `+inf`
falls in the last right-closed bin, `-inf` equals the open left edge of the
first bin and is uncategorised. -/
def cutCell : Cell → Cell
  | some (.num q) => some (.str (classificarNivel q))
  | some .pinf => some (.str "Muito Alta")
  | _ => none

/-!  ## Missing-Value Policy (tratar_dados_faltantes, preprocessamento.py 151-181) -/

/-- The numeric-like values of a column, NaN (and object cells, which never
occur in a numeric-dtype column) skipped — the population over which pandas
computes `mean`/`median`/`std` with the default `skipna`. -/
def numlikeVals (cs : List Cell) : List Val :=
  cs.filterMap (fun c =>
    match c with
    | some (.num q) => some (.num q)
    | some .pinf => some .pinf
    | some .ninf => some .ninf
    | _ => none)

/-- Sum of a list of scalar values with IEEE propagation, starting from 0. -/
def vSum (vs : List Val) : Cell :=
  vs.foldl (fun acc v => cAdd acc (some v)) (some (.num 0))

/-- Embedding: `Series.mean()` (skipna): sum of the non-null values over their count;
the empty column gives `0 / 0 = NaN`. -/
def meanCell (cs : List Cell) : Cell :=
  let vs := numlikeVals cs
  cDiv (vSum vs) (some (.num (vs.length : ℚ)))

/-- Ordering used to sort scalar values (`-inf` below all finite numbers,
`+inf` above, object values last). -/
def vleB : Val → Val → Bool
  | .num x, .num y => decide (x ≤ y)
  | .str x, .str y => decide (x < y) || x == y
  | a, b =>
    (match a with | .ninf => 0 | .num _ => 1 | .pinf => 2 | .str _ => 3)
      ≤ (match b with | .ninf => 0 | .num _ => 1 | .pinf => 2 | .str _ => 3)

/-- Embedding: `Series.median()` (skipna): middle of the sorted non-null values, or the
mean of the two middles for an even count; the empty column gives NaN. -/
def medianCell (cs : List Cell) : Cell :=
  let vs := List.insertionSort (fun a b => vleB a b = true) (numlikeVals cs)
  if vs.length = 0 then none
  else if vs.length % 2 = 1 then vs.get? (vs.length / 2)
  else cDiv (cAdd (vs.get? (vs.length / 2 - 1)) (vs.get? (vs.length / 2)))
            (some (.num 2))

/-- Embedding: `Series.mode().iloc[0]`: the smallest among the most frequent non-null
values, `none` when the column is entirely null. -/
def modeVal (cs : List Cell) : Option Val :=
  let vs := cs.filterMap id
  let sorted := List.insertionSort (fun a b => vleB a b = true) vs.dedup
  sorted.foldl (fun best v =>
    match best with
    | none => some v
    | some b => if vs.count b < vs.count v then some v else some b) none

/-- Boolean row mask application (`df[mask]`), filtering positionally. -/
def applyMask : List Bool → List Cell → List Cell
  | b :: ms, c :: cs => if b then c :: applyMask ms cs else applyMask ms cs
  | _, _ => []

/-- Whether row `i` has no null cell in any column. -/
def rowComplete (df : DataFrame) (i : ℕ) : Bool :=
  df.cols.all (fun col => ((col.cells.get? i).getD none).isSome)

/-- Embedding: `df.dropna()`: keep exactly the rows with no null in any column. -/
def DataFrame.dropna (df : DataFrame) : DataFrame :=
  let mask := (List.range df.nrows).map (rowComplete df)
  ⟨df.cols.map (fun col => { col with cells := applyMask mask col.cells })⟩

/-- Embedding: `tratar_dados_faltantes` (preprocessamento.py 151-181): copy the frame,
then fill numeric columns with their median or mean, fill every column with
its mode (falling back to 0), or drop incomplete rows; any other strategy
name falls through every branch and the copy is returned unchanged. -/
def tratar_dados_faltantes (df : DataFrame) (estrategia : String) : DataFrame :=
  let df_tratado := df.copy
  if estrategia = "mediana" then
    ⟨df_tratado.cols.map (fun col =>
      if col.numeric then { col with cells := fillColWith (medianCell col.cells) col.cells }
      else col)⟩
  else if estrategia = "media" then
    ⟨df_tratado.cols.map (fun col =>
      if col.numeric then { col with cells := fillColWith (meanCell col.cells) col.cells }
      else col)⟩
  else if estrategia = "moda" then
    ⟨df_tratado.cols.map (fun col =>
      { col with cells := fillColWith (some ((modeVal col.cells).getD (.num 0))) col.cells })⟩
  else if estrategia = "remover" then
    df_tratado.dropna
  else
    df_tratado

/-- The call boundary of `tratar_dados_faltantes`: the Python function
receives a reference to the caller's frame, line 164 copies it
(`df_tratado = df.copy()`), and every later statement reads and writes
`df_tratado` only, so the caller's frame after the call (first component)
is the frame that was passed in. -/
def tratarCall (df : DataFrame) (estrategia : String) : DataFrame × DataFrame :=
  (df, tratar_dados_faltantes df estrategia)

/-!  ## Feature Deriver / Scorer / Classifier
(gerar_features_vulnerabilidade, preprocessamento.py 184-282) -/

/-- Embedding: `renda_per_capita` step (lines 205-207): raw division of
`renda_familiar` by `qtd_pessoas_familia`, guarded on column absence. -/
def rendaPerCapitaStep (d : DataFrame) : Option DataFrame :=
  if d.hasCol "renda_per_capita" then some d else
    match d.getCol? "renda_familiar", d.getCol? "qtd_pessoas_familia" with
    | some r, some q => some (d.setCol "renda_per_capita" true (List.zipWith cDiv r q))
    | _, _ => none

/-- Embedding: `vulnerabilidade_idade` step (lines 211-214): `(idade < 18) | (idade > 65)`. -/
def idadeStep (d : DataFrame) : Option DataFrame :=
  if d.hasCol "vulnerabilidade_idade" then some d else
    (d.getCol? "idade").map (fun idade =>
      d.setCol "vulnerabilidade_idade" true
        (idade.map (fun c => boolCell (cLtQ c 18 || cGtQ c 65))))

/-- Embedding: `infraestrutura_adequada` step (lines 217-219):
`(acesso_agua & acesso_esgoto).astype(int)`. -/
def infraStep (d : DataFrame) : Option DataFrame :=
  if d.hasCol "infraestrutura_adequada" then some d else
    match d.getCol? "acesso_agua", d.getCol? "acesso_esgoto" with
    | some a, some e =>
        some (d.setCol "infraestrutura_adequada" true
          ((List.zipWith cAnd a e).map cAstypeInt))
    | _, _ => none

/-- Embedding: `escolaridade_baixa` step (lines 222-224): `escolaridade <= 2`. -/
def escolaridadeStep (d : DataFrame) : Option DataFrame :=
  if d.hasCol "escolaridade_baixa" then some d else
    (d.getCol? "escolaridade").map (fun esc =>
      d.setCol "escolaridade_baixa" true (esc.map (fun c => boolCell (cLeQ c 2))))

/-- Embedding: `situacao_trabalho_precaria` step (lines 227-229): `situacao_trabalho <= 1`. -/
def trabalhoStep (d : DataFrame) : Option DataFrame :=
  if d.hasCol "situacao_trabalho_precaria" then some d else
    (d.getCol? "situacao_trabalho").map (fun tr =>
      d.setCol "situacao_trabalho_precaria" true (tr.map (fun c => boolCell (cLeQ c 1))))

/-- Embedding: `superlotacao` step (lines 232-234): `qtd_pessoas_familia > 5`. -/
def superlotacaoStep (d : DataFrame) : Option DataFrame :=
  if d.hasCol "superlotacao" then some d else
    (d.getCol? "qtd_pessoas_familia").map (fun q =>
      d.setCol "superlotacao" true (q.map (fun c => boolCell (cGtQ c 5))))

/-- Embedding: `recebe_bolsa_familia` step (lines 237-243): with a Bolsa Família frame,
flag membership of `nis` among the active beneficiaries; without one, a
constant 0 column.  Both branches are guarded on column absence. -/
def recebeStep (d : DataFrame) (bolsa : Option DataFrame) : Option DataFrame :=
  match bolsa with
  | some b =>
    if d.hasCol "recebe_bolsa_familia" then some d else
      match b.getCol? "status_beneficio", b.getCol? "nis", d.getCol? "nis" with
      | some st, some bnis, some dnis =>
        let ativos := ((st.zip bnis).filter
          (fun p => decide (p.1 = some (.str "ativo")))).map (·.2)
        let beneficiarios := ativos.dedup
        some (d.setCol "recebe_bolsa_familia" true
          (dnis.map (fun c => boolCell (decide (c ∈ beneficiarios)))))
      | _, _, _ => none
  | none =>
    if d.hasCol "recebe_bolsa_familia" then some d else
      some (d.setCol "recebe_bolsa_familia" true (scalarCol d.nrows (.num 0)))

/-- The fixed weight table (lines 247-255), in the iteration order of the
Python dict. -/
def pesos : List (String × ℚ) :=
  [("renda_per_capita", -3/10),
   ("vulnerabilidade_idade", 2/10),
   ("infraestrutura_adequada", -15/100),
   ("escolaridade_baixa", 15/100),
   ("situacao_trabalho_precaria", 2/10),
   ("superlotacao", 1/10),
   ("possui_deficiencia", 1/10)]

/-- Sample standard deviation of a column (`Series.std()`, `ddof=1`,
skipna): NaN on fewer than two non-null values, otherwise the square root
of the sum of squared deviations over `count - 1`.  `sqrtf` is the numpy
square root on nonnegative finite arguments. -/
def stdCell (sqrtf : ℚ → ℚ) (cs : List Cell) : Cell :=
  let vs := numlikeVals cs
  if vs.length ≤ 1 then none
  else
    match meanCell cs with
    | none => none
    | some m =>
      let sq := (vs.map (fun v => cMul (vSub v m) (vSub v m))).foldl cAdd (some (.num 0))
      match cDiv sq (some (.num ((vs.length : ℚ) - 1))) with
      | some (.num q) => if q < 0 then none else some (.num (sqrtf q))
      | some .pinf => some .pinf
      | _ => none

/-- The z-score normalisation of a column (lines 258-259):
`(x - mean) / std` cell-wise against the batch statistics. -/
def normCells (sqrtf : ℚ → ℚ) (cs : List Cell) : List Cell :=
  let m := meanCell cs
  let s := stdCell sqrtf cs
  cs.map (fun c => cDiv (cSub c m) s)

/-- Weight times column (`peso * df[feature]`). -/
def colSMulCells (w : ℚ) (cs : List Cell) : List Cell :=
  cs.map (fun c => cMul (some (.num w)) c)

/-- Column addition (`score += ...`). -/
def colAddCells (a b : List Cell) : List Cell :=
  List.zipWith cAdd a b

/-- The `score_vulnerabilidade` step (lines 246-269): under the guard, add
the `renda_per_capita_norm` column and accumulate `peso * column` over the
weight table, starting from the scalar 0; the `renda_per_capita` weight
reads the normalised column. -/
def scoreStep (sqrtf : ℚ → ℚ) (d : DataFrame) : Option DataFrame :=
  if d.hasCol "score_vulnerabilidade" then some d else
    match d.getCol? "renda_per_capita" with
    | none => none
    | some rpc =>
      let d1 := d.setCol "renda_per_capita_norm" true (normCells sqrtf rpc)
      let acc0 : Option (List Cell) := some (scalarCol d1.nrows (.num 0))
      let r := pesos.foldl (fun acc p =>
        match acc with
        | none => none
        | some s =>
          match d1.getCol? (if p.1 = "renda_per_capita" then "renda_per_capita_norm" else p.1) with
          | none => none
          | some cs => some (colAddCells s (colSMulCells p.2 cs))) acc0
      match r with
      | none => none
      | some sc => some (d1.setCol "score_vulnerabilidade" true sc)

/-- The `nivel_vulnerabilidade` step (lines 272-277): `pd.cut` of the score
column, guarded on column absence. -/
def cutStep (d : DataFrame) : Option DataFrame :=
  if d.hasCol "nivel_vulnerabilidade" then some d else
    (d.getCol? "score_vulnerabilidade").map (fun sc =>
      d.setCol "nivel_vulnerabilidade" false (sc.map cutCell))

/-- Embedding: `gerar_features_vulnerabilidade` (preprocessamento.py 184-282): copy the
input, return it unchanged when the features were already computed
(line 200), otherwise run the guarded derivation steps in source order.
`none` models a raised `KeyError` on a missing source column. -/
def gerar_features_vulnerabilidade (sqrtf : ℚ → ℚ) (df_cadunico : DataFrame)
    (df_bolsa_familia : Option DataFrame) : Option DataFrame :=
  let df_features := df_cadunico.copy
  if df_features.hasCol "nivel_vulnerabilidade" then some df_features
  else
    rendaPerCapitaStep df_features >>= idadeStep >>= infraStep >>=
      escolaridadeStep >>= trabalhoStep >>= superlotacaoStep >>=
      (recebeStep · df_bolsa_familia) >>= scoreStep sqrtf >>= cutStep

/-- The call boundary of `gerar_features_vulnerabilidade`: line 197 copies
the caller's frame (`df_features = df_cadunico.copy()`) and every later
statement reads and writes `df_features` only, so the caller's frame after
the call (first component) is the frame that was passed in, also when the
body raises. -/
def gerarCall (sqrtf : ℚ → ℚ) (df : DataFrame) (bolsa : Option DataFrame) :
    DataFrame × Option DataFrame :=
  (df, gerar_features_vulnerabilidade sqrtf df bolsa)

/-- The weighted-sum loop of the scorer viewed on one row: the seven
feature values the weight table reads (`renda_per_capita` reading the
normalised income). -/
structure LinhaFeatures where
  renda_per_capita_norm : ℚ
  vulnerabilidade_idade : ℚ
  infraestrutura_adequada : ℚ
  escolaridade_baixa : ℚ
  situacao_trabalho_precaria : ℚ
  superlotacao : ℚ
  possui_deficiencia : ℚ

/-- Row-wise lookup of a feature by its weight-table name. -/
def featureValue (r : LinhaFeatures) (n : String) : ℚ :=
  if n = "renda_per_capita" then r.renda_per_capita_norm
  else if n = "vulnerabilidade_idade" then r.vulnerabilidade_idade
  else if n = "infraestrutura_adequada" then r.infraestrutura_adequada
  else if n = "escolaridade_baixa" then r.escolaridade_baixa
  else if n = "situacao_trabalho_precaria" then r.situacao_trabalho_precaria
  else if n = "superlotacao" then r.superlotacao
  else r.possui_deficiencia

/-- The scorer loop (lines 261-267) on one row of finite values:
`score = 0`, then `score += peso * feature` over the weight table. -/
def scoreVulnerabilidade (r : LinhaFeatures) : ℚ :=
  pesos.foldl (fun acc p => acc + p.2 * featureValue r p.1) 0

/-!  ## Format detection (detectar_formato_arquivo, mapeador_governo.py 19-64) -/

/-- One delimiter/encoding candidate. -/
structure Config where
  sep : String
  enc : String
deriving DecidableEq, Repr

/-- The fixed candidate order of lines 27-34. -/
def configs : List Config :=
  [⟨";", "latin-1"⟩, ⟨";", "utf-8"⟩, ⟨"\t", "latin-1"⟩, ⟨"\t", "utf-8"⟩,
   ⟨",", "utf-8"⟩, ⟨",", "latin-1"⟩]

/-- Embedding: `col.lower()` on a column name: `String.toLower`, written on the
character list (the same characters in the same order). -/
def lowerName (s : String) : String :=
  ⟨s.data.map Char.toLower⟩

/-- Column-signature inspection (lines 41-50) on the lower-cased header. -/
def identificarTipo (colunas : List String) : String :=
  let l := colunas.map lowerName
  if l.contains "cd_ibge" || l.contains "cod_familiar_fam" then "cadunico_familia"
  else if l.contains "cod_familiar_pes" || l.contains "nom_pessoa" then "cadunico_pessoa"
  else if l.contains "uf" && l.contains "valor_parcela" then "bolsa_familia"
  else "desconhecido"

/-- The result dict of `detectar_formato_arquivo`. -/
structure Detec where
  separador : String
  encoding : String
  tipo : String
  colunas : List String
deriving DecidableEq, Repr

/-- The try-loop of lines 36-62 over a remaining candidate list.  A file is
abstracted as the function `readCsv` from a candidate configuration to the
header columns `pd.read_csv` yields under it, `none` when the read raises.
The first candidate that reads without an exception returns immediately,
whatever `identificarTipo` says about its header. -/
def detectarAux (readCsv : Config → Option (List String)) :
    List Config → Option Detec
  | [] => none
  | c :: rest =>
    match readCsv c with
    | some cols => some ⟨c.sep, c.enc, identificarTipo cols, cols⟩
    | none => detectarAux readCsv rest

/-- Embedding: `detectar_formato_arquivo` (mapeador_governo.py 19-64): `none` models
the `ValueError` raised after the loop exhausts every candidate. -/
def detectar_formato_arquivo (readCsv : Config → Option (List String)) :
    Option Detec :=
  detectarAux readCsv configs

/-- Modelled from the spec (claim C4's reading of format detection, spec
§4.1): candidates are tried in the same fixed order but the loop would
continue past a candidate whose header matches no known signature, and
detection would fail when no candidate yields a recognised signature. -/
def detectarFormatoSpecClaim (readCsv : Config → Option (List String)) :
    Option Detec :=
  let isRec := fun cols => identificarTipo cols ≠ "desconhecido"
  (configs.filterMap (fun c =>
    match readCsv c with
    | some cols => if isRec cols then some (⟨c.sep, c.enc, identificarTipo cols, cols⟩ : Detec) else none
    | none => none)).head?

/-!  ## Schema Mapper (mapear_cadunico_familia, mapeador_governo.py 67-139) -/

/-- The `renda_per_capita` cell computation of lines 82-84, applied to the
already-filled `renda_familiar` and `qtd_pessoas_familia` cells:
`(renda / qtd.replace(0, 1)).replace([inf, -inf], 0).fillna(0)`. -/
def mapearRpcCell (rF qI : Cell) : Cell :=
  cFillCell (some (.num 0))
    (cReplaceInfZero (cDiv rF (cReplace (.num 0) (.num 1) qI)))

/-- Embedding: `(cell == code).astype(int)` — the water/energy/refuse mappings
(lines 92, 122, 126): NaN and any non-matching value give 0. -/
def eqCodeCell (code : ℚ) (c : Cell) : Cell :=
  boolCell (decide (c = some (.num code)))

/-- The housing-material lookup of lines 102-111 (`Series.map`): unmapped
codes give NaN. -/
def materialMap : Cell → Cell
  | some (.num q) =>
      if q = 1 then some (.num 2)
      else if q = 2 ∨ q = 3 ∨ q = 4 then some (.num 1)
      else if q = 5 ∨ q = 6 ∨ q = 7 ∨ q = 8 then some (.num 0)
      else none
  | _ => none

/-- Embedding: `mapear_cadunico_familia` (mapeador_governo.py 67-139): builds the
canonical frame column by column; every raw column is accessed with
`df[...]`, so `none` models the `KeyError` raised when a raw column is
absent from the file. -/
def mapear_cadunico_familia (df : DataFrame) : Option DataFrame := do
  let cdibge ← df.getCol? "cd_ibge"
  let m0 := (DataFrame.mk []).setCol "cod_municipio" true cdibge
  let renda ← df.getCol? "vlr_renda_media_fam"
  let rendaF := fillColWith (some (.num 0)) renda
  let m1 := m0.setCol "renda_familiar" true rendaF
  let qtde ← df.getCol? "qtde_pessoas"
  let qtdeI := (fillColWith (some (.num 1)) qtde).map cAstypeInt
  let m2 := m1.setCol "qtd_pessoas_familia" true qtdeI
  let m3 := m2.setCol "renda_per_capita" true (List.zipWith mapearRpcCell rendaF qtdeI)
  let marc ← df.getCol? "marc_pbf"
  let m4 := m3.setCol "recebe_bolsa_familia" true
    ((fillColWith (some (.num 0)) marc).map cAstypeInt)
  let agua ← df.getCol? "cod_abaste_agua_domic_fam"
  let m5 := m4.setCol "acesso_agua" true (agua.map (eqCodeCell 1))
  let esg ← df.getCol? "cod_escoa_sanitario_domic_fam"
  let m6 := m5.setCol "acesso_esgoto" true
    (esg.map (fun c => boolCell (decide (c = some (.num 1) ∨ c = some (.num 2)))))
  let mat ← df.getCol? "cod_material_domic_fam"
  let m7 := m6.setCol "tipo_moradia" true
    ((fillColWith (some (.num 1)) (mat.map materialMap)).map cAstypeInt)
  let com ← df.getCol? "qtd_comodos_domic_fam"
  let comF := fillColWith (some (.num 4)) com
  let ppc := List.zipWith cDiv qtdeI (comF.map (cReplace (.num 0) (.num 1)))
  let m8 := m7.setCol "superlotacao" true (ppc.map (fun c => boolCell (cGtQ c 2)))
  let ilu ← df.getCol? "cod_iluminacao_domic_fam"
  let m9 := m8.setCol "acesso_energia" true (ilu.map (eqCodeCell 1))
  let lix ← df.getCol? "cod_destino_lixo_domic_fam"
  let m10 := m9.setCol "coleta_lixo" true (lix.map (eqCodeCell 1))
  let n := m10.nrows
  let m11 := m10.setCol "idade" true (scalarCol n (.num 35))
  let m12 := m11.setCol "sexo" false (scalarCol n (.str "F"))
  let m13 := m12.setCol "escolaridade" true (scalarCol n (.num 2))
  let m14 := m13.setCol "situacao_trabalho" true (scalarCol n (.num 0))
  some (m14.setCol "possui_deficiencia" true (scalarCol n (.num 0)))

/-!  ## Concrete fixtures used by counterexamples and witnesses -/

/-- One numeric column whose single cell is null. -/
def dfAllNull : DataFrame :=
  ⟨[⟨"renda_familiar", true, [none]⟩]⟩

/-- A frame with a null cell, used to exhibit the unknown-strategy no-op. -/
def dfComFalta : DataFrame :=
  ⟨[⟨"renda_familiar", true, [some (.num 100), none]⟩,
    ⟨"idade", true, [some (.num 30), some (.num 40)]⟩]⟩

/-- A well-formed two-row frame for the missing-value witnesses. -/
def dfFaltantes : DataFrame :=
  ⟨[⟨"renda_familiar", true, [some (.num 100), none]⟩,
    ⟨"nome", false, [some (.str "a"), some (.str "b")]⟩]⟩

/-- A single-household CadÚnico frame whose family has
`qtd_pessoas_familia = 0`: the input of the per-capita counterexample. -/
def dfQtdZero : DataFrame :=
  ⟨[⟨"renda_familiar", true, [some (.num 100)]⟩,
    ⟨"qtd_pessoas_familia", true, [some (.num 0)]⟩,
    ⟨"idade", true, [some (.num 30)]⟩,
    ⟨"acesso_agua", true, [some (.num 1)]⟩,
    ⟨"acesso_esgoto", true, [some (.num 1)]⟩,
    ⟨"escolaridade", true, [some (.num 2)]⟩,
    ⟨"situacao_trabalho", true, [some (.num 1)]⟩,
    ⟨"possui_deficiencia", true, [some (.num 0)]⟩]⟩

/-- A two-household CadÚnico frame with equal per-capita incomes: the
zero-variance witness input. -/
def dfVarZero : DataFrame :=
  ⟨[⟨"renda_familiar", true, [some (.num 200), some (.num 100)]⟩,
    ⟨"qtd_pessoas_familia", true, [some (.num 2), some (.num 1)]⟩,
    ⟨"idade", true, [some (.num 30), some (.num 70)]⟩,
    ⟨"acesso_agua", true, [some (.num 1), some (.num 0)]⟩,
    ⟨"acesso_esgoto", true, [some (.num 1), some (.num 1)]⟩,
    ⟨"escolaridade", true, [some (.num 2), some (.num 5)]⟩,
    ⟨"situacao_trabalho", true, [some (.num 1), some (.num 2)]⟩,
    ⟨"possui_deficiencia", true, [some (.num 0), some (.num 1)]⟩]⟩

/-- A family-layout file (it carries `cd_ibge` and every other column
`mapear_cadunico_familia` reads) from which the water-access column
`cod_abaste_agua_domic_fam` is entirely absent. -/
def dfSemAgua : DataFrame :=
  ⟨[⟨"cd_ibge", true, [some (.num 3550308)]⟩,
    ⟨"vlr_renda_media_fam", true, [some (.num 500)]⟩,
    ⟨"qtde_pessoas", true, [some (.num 4)]⟩,
    ⟨"marc_pbf", true, [some (.num 1)]⟩,
    ⟨"cod_escoa_sanitario_domic_fam", true, [some (.num 1)]⟩,
    ⟨"cod_material_domic_fam", true, [some (.num 1)]⟩,
    ⟨"qtd_comodos_domic_fam", true, [some (.num 4)]⟩,
    ⟨"cod_iluminacao_domic_fam", true, [some (.num 1)]⟩,
    ⟨"cod_destino_lixo_domic_fam", true, [some (.num 1)]⟩]⟩

/-- A file readable under the first candidate with an unrecognised header,
and readable under the second candidate with a family-layout header. -/
def leituraAmbigua (c : Config) : Option (List String) :=
  if c = ⟨";", "latin-1"⟩ then some ["foo"]
  else if c = ⟨";", "utf-8"⟩ then some ["cd_ibge"]
  else none

/-- A file readable under every candidate but never with a recognised
header. -/
def leituraDesconhecida (_ : Config) : Option (List String) :=
  some ["foo", "bar"]

/-- A frame whose derived feature columns are already present with equal
per-capita incomes but no score: the zero-variance witness input of the
scorer step. -/
def dfScorePronto : DataFrame :=
  ⟨[⟨"renda_per_capita", true, [some (.num 100), some (.num 100)]⟩,
    ⟨"vulnerabilidade_idade", true, [some (.num 1), some (.num 0)]⟩,
    ⟨"infraestrutura_adequada", true, [some (.num 1), some (.num 0)]⟩,
    ⟨"escolaridade_baixa", true, [some (.num 0), some (.num 1)]⟩,
    ⟨"situacao_trabalho_precaria", true, [some (.num 1), some (.num 1)]⟩,
    ⟨"superlotacao", true, [some (.num 0), some (.num 0)]⟩,
    ⟨"possui_deficiencia", true, [some (.num 0), some (.num 1)]⟩]⟩

/-- A cell is null or a finite number (the shape of a real numeric pandas
column cell). -/
def isNumOrNullB : Cell → Bool
  | none => true
  | some (.num _) => true
  | _ => false

/-- A cell holding a finite number. -/
def isNumCellB : Cell → Bool
  | some (.num _) => true
  | _ => false

/-- A numeric column whose cells are null or finite, with at least one
finite value. -/
def cleanNumColB (col : Column) : Bool :=
  col.cells.all isNumOrNullB && col.cells.any isNumCellB

/-- No null cell in a column. -/
def noNullsB (cs : List Cell) : Bool :=
  cs.all (·.isSome)

/-!  ## Helper lemmas -/

theorem hasCol_setCol_self (d : DataFrame) (n : String) (b : Bool) (cs : List Cell) :
    (d.setCol n b cs).hasCol n = true := by
  unfold DataFrame.setCol
  split
  · next h =>
    unfold DataFrame.hasCol at h ⊢
    obtain ⟨c, hc, he⟩ := List.any_eq_true.mp h
    refine List.any_eq_true.mpr ⟨if c.name == n then { c with numeric := b, cells := cs } else c,
      List.mem_map.mpr ⟨c, hc, rfl⟩, ?_⟩
    rw [he]
    simpa using he
  · unfold DataFrame.hasCol
    refine List.any_eq_true.mpr ⟨⟨n, b, cs⟩, ?_, ?_⟩
    · simp
    · simp

theorem getCol?_eq_none_of_not_hasCol (d : DataFrame) (n : String)
    (h : d.hasCol n = false) : d.getCol? n = none := by
  unfold DataFrame.getCol?
  have hfind : d.cols.find? (fun c => c.name == n) = none := by
    rw [List.find?_eq_none]
    intro c hc hcn
    unfold DataFrame.hasCol at h
    have hany : d.cols.any (fun c => c.name == n) = true :=
      List.any_eq_true.mpr ⟨c, hc, hcn⟩
    rw [hany] at h
    simp at h
  rw [hfind]
  rfl

theorem cols_ne_nil_of_getCol? (d : DataFrame) (n : String) (cs : List Cell)
    (h : d.getCol? n = some cs) : d.cols ≠ [] := by
  intro hnil
  unfold DataFrame.getCol? at h
  rw [hnil] at h
  simp [List.find?] at h

theorem find?_map_set (n : String) (b : Bool) (cs : List Cell) :
    ∀ L : List Column, L.any (fun c => c.name == n) = true →
      (L.map (fun c => if c.name == n then { c with numeric := b, cells := cs } else c)).find?
        (fun c => c.name == n) = some ⟨n, b, cs⟩ := by
  intro L
  induction L with
  | nil => intro h; simp at h
  | cons c rest ih =>
    intro h
    by_cases hc : (c.name == n) = true
    · have hname : c.name = n := by simpa using hc
      simp only [List.map_cons]
      rw [if_pos hc]
      rw [List.find?_cons_of_pos _ (by simpa using hc)]
      simp [hname]
    · simp only [List.map_cons]
      rw [if_neg hc]
      rw [List.find?_cons_of_neg _ (by simpa using hc)]
      have hrest : rest.any (fun c => c.name == n) = true := by
        rcases List.any_eq_true.mp h with ⟨x, hx, he⟩
        rcases List.mem_cons.mp hx with h1 | h1
        · subst h1; exact absurd he hc
        · exact List.any_eq_true.mpr ⟨x, h1, he⟩
      exact ih hrest

theorem getCol?_setCol_self (d : DataFrame) (n : String) (b : Bool) (cs : List Cell) :
    (d.setCol n b cs).getCol? n = some cs := by
  unfold DataFrame.setCol
  split
  · next h =>
    unfold DataFrame.hasCol at h
    unfold DataFrame.getCol?
    simp only
    rw [find?_map_set n b cs d.cols h]
    rfl
  · next h =>
    unfold DataFrame.hasCol at h
    unfold DataFrame.getCol?
    simp only
    have hnone : d.cols.find? (fun c => c.name == n) = none := by
      rw [List.find?_eq_none]
      intro c hc hcn
      have hany : d.cols.any (fun c => c.name == n) = true :=
        List.any_eq_true.mpr ⟨c, hc, hcn⟩
      exact h hany
    have haux : ∀ L : List Column, L.find? (fun c => c.name == n) = none →
        (L ++ [(⟨n, b, cs⟩ : Column)]).find? (fun c => c.name == n) = some ⟨n, b, cs⟩ := by
      intro L
      induction L with
      | nil => intro _; simp [List.find?]
      | cons c rest ih =>
        intro hL
        simp only [List.find?] at hL
        cases hcc : (c.name == n) with
        | true => rw [hcc] at hL; simp at hL
        | false =>
          rw [hcc] at hL
          simp only [List.cons_append, List.find?, hcc]
          exact ih hL
    rw [haux d.cols hnone]
    rfl

theorem getCol?_setCol_ne (d : DataFrame) (n m : String) (b : Bool) (cs : List Cell)
    (h : m ≠ n) : (d.setCol n b cs).getCol? m = d.getCol? m := by
  unfold DataFrame.setCol
  split
  · unfold DataFrame.getCol?
    simp only
    have haux : ∀ L : List Column,
        (L.map (fun c => if c.name == n then { c with numeric := b, cells := cs } else c)).find?
          (fun c => c.name == m) = L.find? (fun c => c.name == m) := by
      intro L
      induction L with
      | nil => simp
      | cons c rest ih =>
        simp only [List.map_cons, List.find?]
        by_cases hcn : (c.name == n) = true
        · have hname : c.name = n := by simpa using hcn
          have hnm : (c.name == m) = false := by
            refine beq_eq_false_iff_ne.mpr ?_
            rw [hname]
            exact fun he => h he.symm
          rw [if_pos hcn]
          simp only [hnm, ih]
        · rw [if_neg hcn]
          cases hcm : (c.name == m) with
          | true => simp only [hcm]
          | false => simp only [hcm, ih]
    rw [haux]
  · unfold DataFrame.getCol?
    simp only
    have haux : ∀ L : List Column, (L ++ [(⟨n, b, cs⟩ : Column)]).find? (fun c => c.name == m)
        = L.find? (fun c => c.name == m) := by
      intro L
      induction L with
      | nil =>
        have hnm : (n == m) = false := by
          refine beq_eq_false_iff_ne.mpr ?_
          exact fun he => h he.symm
        simp only [List.nil_append, List.find?]
        simp only [hnm]
      | cons c rest ih =>
        simp only [List.cons_append, List.find?]
        cases hcm : (c.name == m) with
        | true => simp only [hcm]
        | false => simp only [hcm, List.append_eq, ih]
    rw [haux]

theorem nrows_setCol_of_not_has (d : DataFrame) (n : String) (b : Bool) (cs : List Cell)
    (h : d.hasCol n = false) (hne : d.cols ≠ []) : (d.setCol n b cs).nrows = d.nrows := by
  unfold DataFrame.setCol
  rw [h]
  simp only [Bool.false_eq_true, if_false]
  unfold DataFrame.nrows
  cases hc : d.cols with
  | nil => exact absurd hc hne
  | cons c rest => simp

theorem numlikeVals_replicate_num (k : ℕ) (c : ℚ) :
    numlikeVals (List.replicate k (some (Val.num c))) = List.replicate k (Val.num c) := by
  induction k with
  | zero => rfl
  | succ j ih => simp only [List.replicate_succ, numlikeVals, List.filterMap] at ih ⊢; rw [ih]

theorem foldl_vAdd_replicate (k : ℕ) (c : ℚ) : ∀ a : ℚ,
    List.foldl (fun acc v => cAdd acc (some v)) (some (Val.num a))
      (List.replicate k (Val.num c)) = some (Val.num (a + k * c)) := by
  induction k with
  | zero => intro a; simp
  | succ j ih =>
    intro a
    rw [List.replicate_succ, List.foldl_cons]
    show List.foldl (fun acc v => cAdd acc (some v)) (cAdd (some (Val.num a)) (some (Val.num c)))
      (List.replicate j (Val.num c)) = some (Val.num (a + (j + 1 : ℕ) * c))
    rw [show cAdd (some (Val.num a)) (some (Val.num c)) = some (Val.num (a + c)) from rfl]
    rw [ih (a + c)]
    congr 1
    congr 1
    push_cast
    ring

theorem meanCell_replicate (k : ℕ) (c : ℚ) (hk : 1 ≤ k) :
    meanCell (List.replicate k (some (Val.num c))) = some (Val.num c) := by
  unfold meanCell vSum
  simp only [numlikeVals_replicate_num, List.length_replicate]
  rw [foldl_vAdd_replicate k c 0]
  have hkq : (k : ℚ) ≠ 0 := Nat.cast_ne_zero.mpr (by omega)
  show cDiv (some (Val.num (0 + k * c))) (some (Val.num k)) = some (Val.num c)
  unfold cDiv vDiv
  simp only
  rw [if_neg hkq]
  congr 2
  field_simp

theorem foldl_cAdd_replicate_zero (k : ℕ) : ∀ a : ℚ,
    List.foldl cAdd (some (Val.num a)) (List.replicate k (some (Val.num 0)))
      = some (Val.num a) := by
  induction k with
  | zero => intro a; rfl
  | succ j ih =>
    intro a
    rw [List.replicate_succ, List.foldl_cons]
    show List.foldl cAdd (cAdd (some (Val.num a)) (some (Val.num 0)))
      (List.replicate j (some (Val.num 0))) = some (Val.num a)
    rw [show cAdd (some (Val.num a)) (some (Val.num 0)) = some (Val.num (a + 0)) from rfl]
    rw [add_zero]
    exact ih a

theorem stdCell_replicate (sqrtf : ℚ → ℚ) (k : ℕ) (c : ℚ) (hk : 2 ≤ k)
    (h0 : sqrtf 0 = 0) :
    stdCell sqrtf (List.replicate k (some (Val.num c))) = some (Val.num 0) := by
  unfold stdCell
  simp only [numlikeVals_replicate_num, List.length_replicate]
  rw [if_neg (by omega)]
  rw [meanCell_replicate k c (by omega)]
  simp only [List.map_replicate]
  rw [show (cMul (vSub (Val.num c) (Val.num c)) (vSub (Val.num c) (Val.num c))) =
    some (Val.num ((c - c) * (c - c))) from rfl]
  rw [sub_self, mul_zero]
  rw [foldl_cAdd_replicate_zero k 0]
  have hkq : ((k : ℚ) - 1) ≠ 0 := by
    have h2 : (2 : ℚ) ≤ (k : ℚ) := by exact_mod_cast hk
    linarith
  rw [show cDiv (some (Val.num 0)) (some (Val.num ((k : ℚ) - 1)))
    = some (Val.num (0 / ((k : ℚ) - 1))) from by
      unfold cDiv vDiv
      simp only
      rw [if_neg hkq]]
  rw [zero_div]
  simp only
  rw [if_neg (by norm_num)]
  rw [h0]

theorem normCells_replicate (sqrtf : ℚ → ℚ) (k : ℕ) (c : ℚ) (hk : 1 ≤ k)
    (h0 : sqrtf 0 = 0) :
    normCells sqrtf (List.replicate k (some (Val.num c))) = List.replicate k none := by
  unfold normCells
  rcases Nat.lt_or_ge k 2 with hk2 | hk2
  · have hk1 : k = 1 := by omega
    subst hk1
    have hstd : stdCell sqrtf (List.replicate 1 (some (Val.num c))) = none := by
      unfold stdCell
      simp only [numlikeVals_replicate_num, List.length_replicate]
      rw [if_pos (le_refl 1)]
    rw [hstd]
    simp only [List.map_replicate]
    rfl
  · rw [stdCell_replicate sqrtf k c hk2 h0]
    rw [meanCell_replicate k c hk]
    simp only [List.map_replicate]
    rw [show cDiv (cSub (some (Val.num c)) (some (Val.num c))) (some (Val.num 0)) = none from by
      rw [show cSub (some (Val.num c)) (some (Val.num c)) = some (Val.num (c - c)) from rfl]
      rw [sub_self]
      unfold cDiv vDiv
      simp]

theorem zipWith_replicate_both {α β γ : Type} (f : α → β → γ) (k : ℕ) (a : α) (b : β) :
    List.zipWith f (List.replicate k a) (List.replicate k b) = List.replicate k (f a b) := by
  induction k with
  | zero => rfl
  | succ j ih => simp only [List.replicate_succ, List.zipWith_cons_cons, ih]

theorem colSMul_replicate_none (w : ℚ) (k : ℕ) :
    colSMulCells w (List.replicate k none) = List.replicate k none := by
  unfold colSMulCells
  rw [List.map_replicate]
  rfl

theorem colSMul_length (w : ℚ) (cs : List Cell) :
    (colSMulCells w cs).length = cs.length := by
  unfold colSMulCells
  exact List.length_map cs _

theorem colAdd_none_left (k : ℕ) : ∀ cs : List Cell, cs.length = k →
    colAddCells (List.replicate k none) cs = List.replicate k none := by
  induction k with
  | zero => intro cs h; simp [colAddCells]
  | succ j ih =>
    intro cs h
    cases cs with
    | nil => simp at h
    | cons x xs =>
      rw [List.replicate_succ]
      unfold colAddCells
      rw [List.zipWith_cons_cons]
      rw [show cAdd none x = none from rfl]
      have hx := ih xs (by simpa using h)
      unfold colAddCells at hx
      rw [hx]

theorem colAdd_scalar_zero_none (k : ℕ) :
    colAddCells (scalarCol k (Val.num 0)) (List.replicate k none) = List.replicate k none := by
  unfold colAddCells scalarCol
  rw [zipWith_replicate_both]
  rfl

/-- Claim C7: for every batch in which `income_per_capita` has zero variance
(a single-row batch, or all per-capita incomes equal to a common value `c`),
the Scorer step raises no error and silently writes a NaN
`score_vulnerabilidade` in every row: the z-score denominator degenerates
(`std` is NaN for one row, 0 for several equal rows, giving `0 / 0`), the
normalised column is all-NaN, and NaN propagates through the weighted sum. -/
theorem zero_variance_nan_score
    (sqrtf : ℚ → ℚ) (d : DataFrame) (n : ℕ) (c : ℚ)
    (cs2 cs3 cs4 cs5 cs6 cs7 : List Cell)
    (h0 : sqrtf 0 = 0) (hn : 1 ≤ n) (hnr : d.nrows = n)
    (hsc : d.hasCol "score_vulnerabilidade" = false)
    (hnorm : d.hasCol "renda_per_capita_norm" = false)
    (hrpc : d.getCol? "renda_per_capita" = some (List.replicate n (some (Val.num c))))
    (h2 : d.getCol? "vulnerabilidade_idade" = some cs2) (l2 : cs2.length = n)
    (h3 : d.getCol? "infraestrutura_adequada" = some cs3) (l3 : cs3.length = n)
    (h4 : d.getCol? "escolaridade_baixa" = some cs4) (l4 : cs4.length = n)
    (h5 : d.getCol? "situacao_trabalho_precaria" = some cs5) (l5 : cs5.length = n)
    (h6 : d.getCol? "superlotacao" = some cs6) (l6 : cs6.length = n)
    (h7 : d.getCol? "possui_deficiencia" = some cs7) (l7 : cs7.length = n) :
    (scoreStep sqrtf d).bind (fun d2 => d2.getCol? "score_vulnerabilidade")
      = some (List.replicate n none) := by
  have hne : d.cols ≠ [] := cols_ne_nil_of_getCol? d _ _ hrpc
  unfold scoreStep
  rw [hsc]
  simp only [Bool.false_eq_true, if_false]
  rw [hrpc]
  have hg1 : (d.setCol "renda_per_capita_norm" true
      (normCells sqrtf (List.replicate n (some (Val.num c))))).getCol? "renda_per_capita_norm"
      = some (normCells sqrtf (List.replicate n (some (Val.num c)))) :=
    getCol?_setCol_self d _ true _
  have hg2 : (d.setCol "renda_per_capita_norm" true
      (normCells sqrtf (List.replicate n (some (Val.num c))))).getCol? "vulnerabilidade_idade"
      = some cs2 := by
    rw [getCol?_setCol_ne d _ _ true _ (by decide)]; exact h2
  have hg3 : (d.setCol "renda_per_capita_norm" true
      (normCells sqrtf (List.replicate n (some (Val.num c))))).getCol? "infraestrutura_adequada"
      = some cs3 := by
    rw [getCol?_setCol_ne d _ _ true _ (by decide)]; exact h3
  have hg4 : (d.setCol "renda_per_capita_norm" true
      (normCells sqrtf (List.replicate n (some (Val.num c))))).getCol? "escolaridade_baixa"
      = some cs4 := by
    rw [getCol?_setCol_ne d _ _ true _ (by decide)]; exact h4
  have hg5 : (d.setCol "renda_per_capita_norm" true
      (normCells sqrtf (List.replicate n (some (Val.num c))))).getCol? "situacao_trabalho_precaria"
      = some cs5 := by
    rw [getCol?_setCol_ne d _ _ true _ (by decide)]; exact h5
  have hg6 : (d.setCol "renda_per_capita_norm" true
      (normCells sqrtf (List.replicate n (some (Val.num c))))).getCol? "superlotacao"
      = some cs6 := by
    rw [getCol?_setCol_ne d _ _ true _ (by decide)]; exact h6
  have hg7 : (d.setCol "renda_per_capita_norm" true
      (normCells sqrtf (List.replicate n (some (Val.num c))))).getCol? "possui_deficiencia"
      = some cs7 := by
    rw [getCol?_setCol_ne d _ _ true _ (by decide)]; exact h7
  have hrows : (d.setCol "renda_per_capita_norm" true
      (normCells sqrtf (List.replicate n (some (Val.num c))))).nrows = n := by
    rw [nrows_setCol_of_not_has d _ true _ hnorm hne]; exact hnr
  simp only [pesos, List.foldl_cons, List.foldl_nil, hg1, hg2, hg3, hg4, hg5, hg6, hg7, hrows,
    String.reduceEq, reduceIte]
  rw [normCells_replicate sqrtf n c hn h0]
  rw [colSMul_replicate_none]
  rw [colAdd_scalar_zero_none]
  rw [colAdd_none_left n (colSMulCells (2/10) cs2) (by rw [colSMul_length]; exact l2)]
  rw [colAdd_none_left n (colSMulCells (-15/100) cs3) (by rw [colSMul_length]; exact l3)]
  rw [colAdd_none_left n (colSMulCells (15/100) cs4) (by rw [colSMul_length]; exact l4)]
  rw [colAdd_none_left n (colSMulCells (2/10) cs5) (by rw [colSMul_length]; exact l5)]
  rw [colAdd_none_left n (colSMulCells (1/10) cs6) (by rw [colSMul_length]; exact l6)]
  rw [colAdd_none_left n (colSMulCells (1/10) cs7) (by rw [colSMul_length]; exact l7)]
  rw [Option.some_bind]
  exact getCol?_setCol_self _ _ true _

/-- Witness for C7: on a two-row batch whose `renda_per_capita` column is
constantly 100, the scorer step succeeds and the score column is NaN in
both rows. -/
theorem zero_variance_nan_score_witness :
    (scoreStep (fun _ => 0) dfScorePronto).bind
        (fun d2 => d2.getCol? "score_vulnerabilidade")
      = some (List.replicate 2 none) :=
  zero_variance_nan_score (fun _ => 0) dfScorePronto 2 100
    [some (.num 1), some (.num 0)] [some (.num 1), some (.num 0)]
    [some (.num 0), some (.num 1)] [some (.num 1), some (.num 1)]
    [some (.num 0), some (.num 0)] [some (.num 0), some (.num 1)]
    rfl (by decide) (by decide) (by decide) (by decide) (by decide)
    (by decide) (by decide) (by decide) (by decide) (by decide) (by decide)
    (by decide) (by decide) (by decide) (by decide) (by decide) (by decide)

theorem cutStep_hasNivel (d out : DataFrame) (h : cutStep d = some out) :
    out.hasCol "nivel_vulnerabilidade" = true := by
  unfold cutStep at h
  by_cases hd : d.hasCol "nivel_vulnerabilidade" = true
  · rw [if_pos hd] at h
    cases h
    exact hd
  · rw [if_neg hd] at h
    rcases Option.map_eq_some'.mp h with ⟨sc, hsc, hset⟩
    rw [← hset]
    exact hasCol_setCol_self d _ false _

/-- Claim C6: the Feature Deriver, Scorer and Classifier are idempotent:
whenever `gerar_features_vulnerabilidade` succeeds, its output always
carries the `nivel_vulnerabilidade` column, so a second application takes
the already-processed early return (line 200) and gives back the same
table. -/
theorem feature_pipeline_idempotent (sqrtf : ℚ → ℚ) (df : DataFrame)
    (bolsa : Option DataFrame) (out : DataFrame)
    (h : gerar_features_vulnerabilidade sqrtf df bolsa = some out) :
    gerar_features_vulnerabilidade sqrtf out bolsa = some out := by
  have hout : out.hasCol "nivel_vulnerabilidade" = true := by
    unfold gerar_features_vulnerabilidade at h
    by_cases hdf : (DataFrame.copy df).hasCol "nivel_vulnerabilidade" = true
    · rw [if_pos hdf] at h
      cases h
      exact hdf
    · rw [if_neg hdf] at h
      cases hX : rendaPerCapitaStep (DataFrame.copy df) >>= idadeStep >>= infraStep >>=
          escolaridadeStep >>= trabalhoStep >>= superlotacaoStep >>=
          (recebeStep · bolsa) >>= scoreStep sqrtf with
      | none => rw [hX] at h; simp at h
      | some d8 =>
        rw [hX] at h
        simp only [Option.bind_eq_bind, Option.some_bind] at h
        exact cutStep_hasNivel d8 out h
  unfold gerar_features_vulnerabilidade
  rw [if_pos (show (DataFrame.copy out).hasCol "nivel_vulnerabilidade" = true from hout)]
  rfl

/-- Witness for C6: the single-household fixture runs through the full
pipeline; re-running the pipeline on the produced table returns it
unchanged. -/
theorem feature_pipeline_idempotent_witness :
    gerar_features_vulnerabilidade (fun _ => 0)
        ((gerar_features_vulnerabilidade (fun _ => 0) dfQtdZero none).getD ⟨[]⟩) none
      = some ((gerar_features_vulnerabilidade (fun _ => 0) dfQtdZero none).getD ⟨[]⟩) :=
  feature_pipeline_idempotent (fun _ => 0) dfQtdZero none _ (by decide)

/-- Claim C1: the Tier Classifier is a total, deterministic function on
finite scores; each score falls in exactly one of the four right-closed
bands (characterised by the four iffs), the assigned label is monotonically
non-decreasing in the score under the label order Baixa < Média < Alta <
Muito Alta, and the spec examples -0.6, -0.5, -0.4, 0, 0.1, 0.6 receive the
expected labels. -/
theorem tier_classifier_total_monotone :
    (∀ s : ℚ,
      (classificarNivel s = "Baixa" ↔ s ≤ -1/2) ∧
      (classificarNivel s = "Média" ↔ -1/2 < s ∧ s ≤ 0) ∧
      (classificarNivel s = "Alta" ↔ 0 < s ∧ s ≤ 1/2) ∧
      (classificarNivel s = "Muito Alta" ↔ 1/2 < s)) ∧
    (∀ s t : ℚ, s ≤ t →
      nivelIndex (classificarNivel s) ≤ nivelIndex (classificarNivel t)) ∧
    (classificarNivel (-6/10) = "Baixa" ∧ classificarNivel (-5/10) = "Baixa" ∧
     classificarNivel (-4/10) = "Média" ∧ classificarNivel 0 = "Média" ∧
     classificarNivel (1/10) = "Alta" ∧ classificarNivel (6/10) = "Muito Alta") := by
  refine ⟨?_, ?_, ?_⟩
  · intro s
    unfold classificarNivel
    split_ifs with h1 h2 h3
    · exact ⟨iff_of_true rfl h1,
        iff_of_false (by decide) (by rintro ⟨a, _⟩; linarith),
        iff_of_false (by decide) (by rintro ⟨a, _⟩; linarith),
        iff_of_false (by decide) (by intro a; linarith)⟩
    · have h1h : -1/2 < s := not_le.mp h1
      exact ⟨iff_of_false (by decide) h1,
        iff_of_true rfl ⟨h1h, h2⟩,
        iff_of_false (by decide) (by rintro ⟨a, _⟩; linarith),
        iff_of_false (by decide) (by intro a; linarith)⟩
    · have h2h : 0 < s := not_le.mp h2
      exact ⟨iff_of_false (by decide) (by intro a; linarith),
        iff_of_false (by decide) (by rintro ⟨_, a⟩; exact h2 a),
        iff_of_true rfl ⟨h2h, h3⟩,
        iff_of_false (by decide) (by intro a; linarith)⟩
    · have h3h : 1/2 < s := not_le.mp h3
      exact ⟨iff_of_false (by decide) (by intro a; linarith),
        iff_of_false (by decide) (by rintro ⟨_, a⟩; linarith),
        iff_of_false (by decide) (by rintro ⟨_, a⟩; exact h3 a),
        iff_of_true rfl h3h⟩
  · intro s t hst
    unfold classificarNivel
    split_ifs with a1 a2 a3 b1 b2 b3 <;> simp_all [nivelIndex] <;> linarith
  · norm_num [classificarNivel]

/-- Witness for C1: the monotonicity conjunct applied at the concrete pair
-1 <= 1. -/
theorem tier_classifier_total_monotone_witness :
    (-1 : ℚ) ≤ 1 ∧
    nivelIndex (classificarNivel (-1)) ≤ nivelIndex (classificarNivel 1) :=
  ⟨by norm_num, tier_classifier_total_monotone.2.1 (-1) 1 (by norm_num)⟩

/-- Claim C2: the scorer loop computes the fixed weighted linear combination
`-0.30 z + 0.20 age - 0.15 infra + 0.15 low_edu + 0.20 precarious
+ 0.10 overcrowding + 0.10 disability`; the z cell is the batch z-score
`(x - mean) / std` whenever the standard deviation is a nonzero finite
number; and the spec household (z = -1, flags 1,0,1,1,0,0) scores 0.85,
classified Muito Alta / VeryHigh. -/
theorem scorer_weighted_sum_spec :
    (∀ r : LinhaFeatures, scoreVulnerabilidade r =
      -(3/10) * r.renda_per_capita_norm + 2/10 * r.vulnerabilidade_idade
        - 15/100 * r.infraestrutura_adequada + 15/100 * r.escolaridade_baixa
        + 2/10 * r.situacao_trabalho_precaria + 1/10 * r.superlotacao
        + 1/10 * r.possui_deficiencia) ∧
    (∀ x m s : ℚ, s ≠ 0 →
      cDiv (cSub (some (.num x)) (some (.num m))) (some (.num s))
        = some (.num ((x - m) / s))) ∧
    scoreVulnerabilidade ⟨-1, 1, 0, 1, 1, 0, 0⟩ = 85/100 ∧
    classificarNivel (scoreVulnerabilidade ⟨-1, 1, 0, 1, 1, 0, 0⟩) = "Muito Alta" := by
  have hform : ∀ r : LinhaFeatures, scoreVulnerabilidade r =
      -(3/10) * r.renda_per_capita_norm + 2/10 * r.vulnerabilidade_idade
        - 15/100 * r.infraestrutura_adequada + 15/100 * r.escolaridade_baixa
        + 2/10 * r.situacao_trabalho_precaria + 1/10 * r.superlotacao
        + 1/10 * r.possui_deficiencia := by
    intro r
    simp only [scoreVulnerabilidade, pesos, featureValue, List.foldl_cons, List.foldl_nil,
      String.reduceEq, reduceIte]
    ring
  have hex : scoreVulnerabilidade ⟨-1, 1, 0, 1, 1, 0, 0⟩ = 85/100 := by
    rw [hform]
    norm_num
  refine ⟨hform, ?_, hex, ?_⟩
  · intro x m s hs
    simp only [cDiv, cSub, vDiv, vSub]
    rw [if_neg hs]
  · rw [hex]
    norm_num [classificarNivel]

/-- Witness for C2: the z-score conjunct applied at x = 1, mean = 2,
std = 2. -/
theorem scorer_weighted_sum_spec_witness :
    cDiv (cSub (some (.num 1)) (some (.num 2))) (some (.num 2))
      = some (.num ((1 - 2) / 2)) :=
  scorer_weighted_sum_spec.2.1 1 2 2 (by norm_num)

/-- Claim C10: the Missing-Value Policy and the Feature Deriver are pure at
the function boundary: both copy the received frame first (lines 164 and
197) and every later statement touches the copy only, so the caller's frame
after the call is exactly the frame passed in. -/
theorem preprocessing_functions_pure :
    ∀ (df : DataFrame) (estrategia : String) (sqrtf : ℚ → ℚ) (bolsa : Option DataFrame),
      (tratarCall df estrategia).1 = df ∧ (gerarCall sqrtf df bolsa).1 = df := by
  intro df estrategia sqrtf bolsa
  exact ⟨rfl, rfl⟩

/-- Counterexample to C5: the strategy name "estrategia_invalida" is not one
of the four recognised names, yet `tratar_dados_faltantes` raises nothing
and returns the frame unchanged — with its null cell still in place — so an
unrecognised name is a silent no-op, not a fatal `UnknownStrategyError`
(no such error exists anywhere in the code). -/
theorem unknown_strategy_counterexample :
    tratar_dados_faltantes dfComFalta "estrategia_invalida" = dfComFalta ∧
    ("estrategia_invalida" ≠ "mediana" ∧ "estrategia_invalida" ≠ "media" ∧
     "estrategia_invalida" ≠ "moda" ∧ "estrategia_invalida" ≠ "remover") ∧
    noNullsB (dfComFalta.cols.headD ⟨"", true, []⟩).cells = false := by
  refine ⟨by decide, ⟨by decide, by decide, by decide, by decide⟩, by decide⟩

/-- Claim C5 as amended: for every strategy name outside the four recognised
ones the Missing-Value Policy silently returns its input unchanged (up to
copy); no error of any kind is raised. -/
theorem unknown_strategy_amended :
    ∀ (df : DataFrame) (s : String),
      s ≠ "mediana" → s ≠ "media" → s ≠ "moda" → s ≠ "remover" →
      tratar_dados_faltantes df s = df := by
  intro df s h1 h2 h3 h4
  unfold tratar_dados_faltantes
  rw [if_neg h1, if_neg h2, if_neg h3, if_neg h4]
  rfl

/-- Witness for C5 (amended): the no-op at the concrete name "qualquer". -/
theorem unknown_strategy_amended_witness :
    tratar_dados_faltantes dfComFalta "qualquer" = dfComFalta :=
  unknown_strategy_amended dfComFalta "qualquer"
    (by decide) (by decide) (by decide) (by decide)

/-- Counterexample to C3: the household of `dfQtdZero` has
`renda_familiar = 100` and `qtd_pessoas_familia = 0`; the Feature Deriver
divides by the raw household size, producing the non-finite cell `+inf` for
`renda_per_capita`, not the claimed `100 / max(0, 1) = 100`. -/
theorem per_capita_floor_counterexample :
    (gerar_features_vulnerabilidade (fun _ => 0) dfQtdZero none).bind
        (fun d => d.getCol? "renda_per_capita") = some [some Val.pinf] ∧
    (some Val.pinf : Cell) ≠ some (Val.num (100 / max (0 : ℚ) 1)) := by
  constructor
  · decide
  · intro h
    cases h

/-- Claim C3 as amended: the floor at 1 exists only in the Schema Mapper —
its per-capita cell equals `renda / max(qtd, 1)` for every natural
household size (`replace(0, 1)` plus inf/NaN scrubbing); the Feature
Deriver instead divides `renda_familiar` by the raw `qtd_pessoas_familia`
cell-wise, and its division maps a zero size to `+inf`/`-inf`/NaN according
to the sign of the income. -/
theorem per_capita_floor_amended :
    (∀ (r : ℚ) (n : ℕ),
      mapearRpcCell (some (.num r)) (some (.num n)) = some (.num (r / max (n : ℚ) 1))) ∧
    (∀ (d : DataFrame) (r q : List Cell), d.hasCol "renda_per_capita" = false →
      d.getCol? "renda_familiar" = some r → d.getCol? "qtd_pessoas_familia" = some q →
      rendaPerCapitaStep d = some (d.setCol "renda_per_capita" true (List.zipWith cDiv r q))) ∧
    (∀ r : ℚ, cDiv (some (.num r)) (some (.num 0)) =
      if 0 < r then some Val.pinf else if r < 0 then some Val.ninf else none) := by
  refine ⟨?_, ?_, ?_⟩
  · intro r n
    cases n with
    | zero =>
      have hrep : cReplace (Val.num 0) (Val.num 1) (some (Val.num ((0 : ℕ) : ℚ)))
          = some (Val.num 1) := by
        unfold cReplace
        rw [if_pos (by norm_num)]
      unfold mapearRpcCell
      rw [hrep]
      have hd : cDiv (some (Val.num r)) (some (Val.num 1)) = some (Val.num (r / 1)) := by
        have hm : cDiv (some (Val.num r)) (some (Val.num 1))
            = if (1 : ℚ) = 0 then
                (if 0 < r then some Val.pinf else if r < 0 then some Val.ninf else none)
              else some (Val.num (r / 1)) := rfl
        rw [hm, if_neg (by norm_num)]
      rw [hd]
      have hfin : cFillCell (some (Val.num 0)) (cReplaceInfZero (some (Val.num (r / 1))))
          = some (Val.num (r / 1)) := rfl
      rw [hfin]
      norm_num
    | succ m =>
      have hne : ((m + 1 : ℕ) : ℚ) ≠ 0 := Nat.cast_ne_zero.mpr (Nat.succ_ne_zero m)
      have hge : (1 : ℚ) ≤ ((m + 1 : ℕ) : ℚ) := by
        have h1 : (1 : ℕ) ≤ m + 1 := Nat.succ_le_succ (Nat.zero_le m)
        exact_mod_cast h1
      have hcell : (some (Val.num ((m + 1 : ℕ) : ℚ)) : Cell) ≠ some (Val.num 0) := by
        intro h
        simp only [Option.some.injEq, Val.num.injEq] at h
        exact hne h
      have hrep : cReplace (Val.num 0) (Val.num 1) (some (Val.num ((m + 1 : ℕ) : ℚ)))
          = some (Val.num ((m + 1 : ℕ) : ℚ)) := by
        unfold cReplace
        rw [if_neg hcell]
      unfold mapearRpcCell
      rw [hrep]
      have hd : cDiv (some (Val.num r)) (some (Val.num ((m + 1 : ℕ) : ℚ)))
          = some (Val.num (r / ((m + 1 : ℕ) : ℚ))) := by
        have hm : cDiv (some (Val.num r)) (some (Val.num ((m + 1 : ℕ) : ℚ)))
            = if ((m + 1 : ℕ) : ℚ) = 0 then
                (if 0 < r then some Val.pinf else if r < 0 then some Val.ninf else none)
              else some (Val.num (r / ((m + 1 : ℕ) : ℚ))) := rfl
        rw [hm, if_neg hne]
      rw [hd]
      have hfin : cFillCell (some (Val.num 0))
          (cReplaceInfZero (some (Val.num (r / ((m + 1 : ℕ) : ℚ)))))
          = some (Val.num (r / ((m + 1 : ℕ) : ℚ))) := rfl
      rw [hfin]
      rw [max_eq_left hge]
  · intro d r q hno hr hq
    unfold rendaPerCapitaStep
    rw [hno]
    simp only [Bool.false_eq_true, if_false, hr, hq]
  · intro r
    unfold cDiv vDiv
    norm_num

/-- Witness for C3 (amended): the deriver step on the concrete zero-size
household, and the mapper cell at the same income and size. -/
theorem per_capita_floor_amended_witness :
    rendaPerCapitaStep dfQtdZero
      = some (dfQtdZero.setCol "renda_per_capita" true
          (List.zipWith cDiv [some (.num 100)] [some (.num 0)])) ∧
    mapearRpcCell (some (.num 100)) (some (.num (0 : ℕ)))
      = some (.num (100 / max ((0 : ℕ) : ℚ) 1)) :=
  ⟨per_capita_floor_amended.2.1 dfQtdZero [some (.num 100)] [some (.num 0)]
      (by decide) (by decide) (by decide),
   per_capita_floor_amended.1 100 0⟩

/-- Counterexample to C8: `dfSemAgua` is a family-layout file (it carries
`cd_ibge` and every other raw column the mapper reads) whose water-access
column is entirely absent; `mapear_cadunico_familia` raises (`KeyError`,
modelled as `none`) instead of producing an output with
`acesso_agua = false` rows. -/
theorem missing_water_column_counterexample :
    mapear_cadunico_familia dfSemAgua = none ∧
    dfSemAgua.hasCol "cod_abaste_agua_domic_fam" = false ∧
    dfSemAgua.hasCol "cd_ibge" = true := by
  refine ⟨by decide, by decide, by decide⟩

/-- Claim C8 as amended: when the raw water-access column is entirely
absent the Schema Mapper raises `KeyError` (the unguarded `df[...]` access
of line 92) and produces no output at all; the false default applies only
cell-wise — when the column is present, every cell other than code 1
(null included) maps to 0/false. -/
theorem missing_water_column_amended :
    (∀ df : DataFrame, df.hasCol "cod_abaste_agua_domic_fam" = false →
      mapear_cadunico_familia df = none) ∧
    (∀ c : Cell, c ≠ some (.num 1) → eqCodeCell 1 c = some (.num 0)) := by
  constructor
  · intro df h
    have hg : df.getCol? "cod_abaste_agua_domic_fam" = none :=
      getCol?_eq_none_of_not_hasCol df _ h
    unfold mapear_cadunico_familia
    cases h1 : df.getCol? "cd_ibge" with
    | none => simp [Option.bind]
    | some a =>
      cases h2 : df.getCol? "vlr_renda_media_fam" with
      | none => simp [Option.bind, h2]
      | some b =>
        cases h3 : df.getCol? "qtde_pessoas" with
        | none => simp [Option.bind, h3]
        | some c =>
          cases h4 : df.getCol? "marc_pbf" with
          | none => simp [Option.bind, h4]
          | some e => simp [Option.bind, h2, h3, h4, hg]
  · intro c hc
    unfold eqCodeCell boolCell
    rw [decide_eq_false hc]
    simp

/-- Witness for C8 (amended): applied to the concrete water-less family
file and to a null water cell. -/
theorem missing_water_column_amended_witness :
    mapear_cadunico_familia dfSemAgua = none ∧ eqCodeCell 1 none = some (.num 0) :=
  ⟨missing_water_column_amended.1 dfSemAgua (by decide),
   missing_water_column_amended.2 none (by decide)⟩

theorem detectarAux_none_iff (f : Config → Option (List String)) :
    ∀ L : List Config, detectarAux f L = none ↔ ∀ c ∈ L, f c = none := by
  intro L
  induction L with
  | nil => simp [detectarAux]
  | cons c rest ih =>
    unfold detectarAux
    cases hf : f c with
    | none =>
      simp only
      constructor
      · intro h x hx
        rcases List.mem_cons.mp hx with h1 | h1
        · subst h1; exact hf
        · exact (ih.mp h) x h1
      · intro h
        exact ih.mpr (fun x hx => h x (List.mem_cons_of_mem c hx))
    | some cols =>
      simp only
      constructor
      · intro h; cases h
      · intro h
        have := h c (List.mem_cons_self c rest)
        rw [hf] at this
        cases this

theorem detectarAux_some (f : Config → Option (List String)) :
    ∀ (L : List Config) (r : Detec), detectarAux f L = some r →
      r.tipo = identificarTipo r.colunas ∧
      ∃ pre c post, L = pre ++ c :: post ∧ f c = some r.colunas ∧
        r.separador = c.sep ∧ r.encoding = c.enc ∧ ∀ c' ∈ pre, f c' = none := by
  intro L
  induction L with
  | nil => intro r h; cases h
  | cons c rest ih =>
    intro r h
    unfold detectarAux at h
    cases hf : f c with
    | some cols =>
      rw [hf] at h
      simp only [Option.some.injEq] at h
      subst h
      refine ⟨rfl, [], c, rest, rfl, hf, rfl, rfl, ?_⟩
      intro c' hc'
      cases hc'
    | none =>
      rw [hf] at h
      simp only at h
      obtain ⟨htipo, pre, c1, post, hL, hfc, hsep, henc, hpre⟩ := ih r h
      refine ⟨htipo, c :: pre, c1, post, by rw [hL]; rfl, hfc, hsep, henc, ?_⟩
      intro c' hc'
      rcases List.mem_cons.mp hc' with h1 | h1
      · subst h1; exact hf
      · exact hpre c' h1

/-- Claim C4 as amended: format detection tries the six delimiter/encoding
candidates in their fixed order, but the first candidate that parses wins
whatever its header looks like — an unrecognised header yields the type
"desconhecido" rather than moving on to the next candidate — and the
`ValueError` is raised exactly when every candidate fails to parse. -/
theorem format_detection_amended :
    ∀ readCsv : Config → Option (List String),
      (detectar_formato_arquivo readCsv = none ↔ ∀ c ∈ configs, readCsv c = none) ∧
      (∀ r : Detec, detectar_formato_arquivo readCsv = some r →
        r.tipo = identificarTipo r.colunas ∧
        ∃ pre c post, configs = pre ++ c :: post ∧ readCsv c = some r.colunas ∧
          r.separador = c.sep ∧ r.encoding = c.enc ∧ ∀ c' ∈ pre, readCsv c' = none) := by
  intro readCsv
  exact ⟨detectarAux_none_iff readCsv configs,
    fun r h => detectarAux_some readCsv configs r h⟩

/-- Counterexample to C4: under `leituraAmbigua` the first candidate parses
with an unrecognised header while the second would parse with a recognised
family signature — the code stops at the first and reports "desconhecido",
where the claim demands continuing to the recognised signature; and under
`leituraDesconhecida` (readable everywhere, never recognised) the code
returns successfully where the claim demands a detection error. -/
theorem format_detection_counterexample :
    detectar_formato_arquivo leituraAmbigua
      = some ⟨";", "latin-1", "desconhecido", ["foo"]⟩ ∧
    detectarFormatoSpecClaim leituraAmbigua
      = some ⟨";", "utf-8", "cadunico_familia", ["cd_ibge"]⟩ ∧
    detectar_formato_arquivo leituraDesconhecida
      = some ⟨";", "latin-1", "desconhecido", ["foo", "bar"]⟩ ∧
    detectarFormatoSpecClaim leituraDesconhecida = none := by
  refine ⟨by decide, by decide, by decide, by decide⟩

/-- Witness for C4 (amended): the some-case description applied to the
concrete ambiguous file. -/
theorem format_detection_amended_witness :
    (⟨";", "latin-1", "desconhecido", ["foo"]⟩ : Detec).tipo
        = identificarTipo ["foo"] ∧
    ∃ pre c post, configs = pre ++ c :: post ∧ leituraAmbigua c = some ["foo"] ∧
      (⟨";", "latin-1", "desconhecido", ["foo"]⟩ : Detec).separador = c.sep ∧
      (⟨";", "latin-1", "desconhecido", ["foo"]⟩ : Detec).encoding = c.enc ∧
      ∀ c' ∈ pre, leituraAmbigua c' = none :=
  (format_detection_amended leituraAmbigua).2
    ⟨";", "latin-1", "desconhecido", ["foo"]⟩ (by decide)

theorem isNumCellB_eq (c : Cell) (h : isNumCellB c = true) :
    ∃ q : ℚ, c = some (Val.num q) := by
  cases c with
  | none => simp [isNumCellB] at h
  | some v =>
    cases v with
    | num q => exact ⟨q, rfl⟩
    | pinf => simp [isNumCellB] at h
    | ninf => simp [isNumCellB] at h
    | str s => simp [isNumCellB] at h

theorem mem_numlikeVals_num (cs : List Cell) (q : ℚ)
    (h : some (Val.num q) ∈ cs) : Val.num q ∈ numlikeVals cs := by
  unfold numlikeVals
  exact List.mem_filterMap.mpr ⟨some (Val.num q), h, rfl⟩

theorem numlikeVals_all_num (cs : List Cell)
    (h : ∀ c ∈ cs, isNumOrNullB c = true) :
    ∀ v ∈ numlikeVals cs, ∃ q : ℚ, v = Val.num q := by
  intro v hv
  unfold numlikeVals at hv
  obtain ⟨c, hc, he⟩ := List.mem_filterMap.mp hv
  have hok := h c hc
  cases c with
  | none => simp at he
  | some w =>
    cases w with
    | num q =>
      simp only [Option.some.injEq] at he
      exact ⟨q, he.symm⟩
    | pinf => simp [isNumOrNullB] at hok
    | ninf => simp [isNumOrNullB] at hok
    | str s => simp [isNumOrNullB] at hok

theorem numlikeVals_ne_nil (cs : List Cell) (hany : cs.any isNumCellB = true) :
    numlikeVals cs ≠ [] := by
  obtain ⟨c, hc, hnum⟩ := List.any_eq_true.mp hany
  obtain ⟨q, rfl⟩ := isNumCellB_eq c hnum
  exact List.ne_nil_of_mem (mem_numlikeVals_num cs q hc)

theorem medianCell_isSome (cs : List Cell)
    (hall : cs.all isNumOrNullB = true) (hany : cs.any isNumCellB = true) :
    (medianCell cs).isSome = true := by
  unfold medianCell
  simp only
  set vs := List.insertionSort (fun a b => vleB a b = true) (numlikeVals cs) with hvs
  have hperm : vs.Perm (numlikeVals cs) := List.perm_insertionSort _ _
  have hnums : ∀ v ∈ vs, ∃ q : ℚ, v = Val.num q := by
    intro v hv
    exact numlikeVals_all_num cs (fun c hc => List.all_eq_true.mp hall c hc) v
      (hperm.mem_iff.mp hv)
  have hpos : 0 < vs.length := by
    have hne : numlikeVals cs ≠ [] := numlikeVals_ne_nil cs hany
    rw [hperm.length_eq]
    exact List.length_pos.mpr hne
  rw [if_neg (by omega)]
  by_cases hodd : vs.length % 2 = 1
  · rw [if_pos hodd]
    have hlt : vs.length / 2 < vs.length := Nat.div_lt_self hpos (by norm_num)
    cases hg : vs.get? (vs.length / 2) with
    | none => rw [List.get?_eq_none] at hg; omega
    | some v => rfl
  · rw [if_neg hodd]
    have hlt2 : vs.length / 2 < vs.length := Nat.div_lt_self hpos (by norm_num)
    have hlt1 : vs.length / 2 - 1 < vs.length := by omega
    cases hga : vs.get? (vs.length / 2 - 1) with
    | none => rw [List.get?_eq_none] at hga; omega
    | some a =>
      cases hgb : vs.get? (vs.length / 2) with
      | none => rw [List.get?_eq_none] at hgb; omega
      | some b =>
        obtain ⟨qa, rfl⟩ := hnums a (List.get?_mem hga)
        obtain ⟨qb, rfl⟩ := hnums b (List.get?_mem hgb)
        rw [show cAdd (some (Val.num qa)) (some (Val.num qb))
          = some (Val.num (qa + qb)) from rfl]
        have hm : cDiv (some (Val.num (qa + qb))) (some (Val.num 2))
            = if (2 : ℚ) = 0 then
                (if 0 < qa + qb then some Val.pinf
                 else if qa + qb < 0 then some Val.ninf else none)
              else some (Val.num ((qa + qb) / 2)) := rfl
        rw [hm, if_neg (by norm_num)]
        rfl

theorem foldl_vAdd_nums : ∀ l : List Val, (∀ v ∈ l, ∃ q : ℚ, v = Val.num q) →
    ∀ a : ℚ, ∃ t : ℚ,
      List.foldl (fun acc v => cAdd acc (some v)) (some (Val.num a)) l
        = some (Val.num t) := by
  intro l
  induction l with
  | nil => intro _ a; exact ⟨a, rfl⟩
  | cons v rest ih =>
    intro h a
    obtain ⟨q, rfl⟩ := h v (List.mem_cons_self v rest)
    rw [List.foldl_cons]
    show ∃ t : ℚ, List.foldl (fun acc v => cAdd acc (some v))
      (cAdd (some (Val.num a)) (some (Val.num q))) rest = some (Val.num t)
    rw [show cAdd (some (Val.num a)) (some (Val.num q))
      = some (Val.num (a + q)) from rfl]
    exact ih (fun v hv => h v (List.mem_cons_of_mem _ hv)) (a + q)

theorem meanCell_isSome (cs : List Cell)
    (hall : cs.all isNumOrNullB = true) (hany : cs.any isNumCellB = true) :
    (meanCell cs).isSome = true := by
  unfold meanCell vSum
  simp only
  have hnums : ∀ v ∈ numlikeVals cs, ∃ q : ℚ, v = Val.num q :=
    numlikeVals_all_num cs (fun c hc => List.all_eq_true.mp hall c hc)
  obtain ⟨t, ht⟩ := foldl_vAdd_nums (numlikeVals cs) hnums 0
  rw [ht]
  have hlen : ((numlikeVals cs).length : ℚ) ≠ 0 := by
    have hne : numlikeVals cs ≠ [] := numlikeVals_ne_nil cs hany
    have hp : 0 < (numlikeVals cs).length := List.length_pos.mpr hne
    exact_mod_cast Nat.pos_iff_ne_zero.mp hp
  have hm : cDiv (some (Val.num t)) (some (Val.num ((numlikeVals cs).length : ℚ)))
      = if ((numlikeVals cs).length : ℚ) = 0 then
          (if 0 < t then some Val.pinf else if t < 0 then some Val.ninf else none)
        else some (Val.num (t / ((numlikeVals cs).length : ℚ))) := rfl
  rw [hm, if_neg hlen]
  rfl

theorem applyMask_mem : ∀ (mask : List Bool) (cs : List Cell) (c : Cell),
    c ∈ applyMask mask cs → ∃ i, mask.get? i = some true ∧ cs.get? i = some c := by
  intro mask
  induction mask with
  | nil => intro cs c h; simp [applyMask] at h
  | cons b ms ih =>
    intro cs c h
    cases cs with
    | nil => simp [applyMask] at h
    | cons x xs =>
      unfold applyMask at h
      cases b with
      | true =>
        rw [if_pos rfl] at h
        rcases List.mem_cons.mp h with h1 | h1
        · subst h1; exact ⟨0, rfl, rfl⟩
        · obtain ⟨i, h2, h3⟩ := ih xs c h1
          exact ⟨i + 1, h2, h3⟩
      | false =>
        rw [if_neg (by simp)] at h
        obtain ⟨i, h2, h3⟩ := ih xs c h
        exact ⟨i + 1, h2, h3⟩

theorem applyMask_length_le : ∀ (mask : List Bool) (cs : List Cell),
    (applyMask mask cs).length ≤ cs.length := by
  intro mask
  induction mask with
  | nil => intro cs; simp [applyMask]
  | cons b ms ih =>
    intro cs
    cases cs with
    | nil => simp [applyMask]
    | cons x xs =>
      unfold applyMask
      cases b with
      | true =>
        rw [if_pos rfl]
        simpa using ih xs
      | false =>
        rw [if_neg (by simp)]
        exact le_trans (ih xs) (by simp)

theorem dropna_noNulls (df : DataFrame) :
    ∀ col ∈ (DataFrame.dropna df).cols, noNullsB col.cells = true := by
  intro col hcol
  unfold DataFrame.dropna at hcol
  simp only [List.mem_map] at hcol
  obtain ⟨col0, hcol0, rfl⟩ := hcol
  unfold noNullsB
  rw [List.all_eq_true]
  intro c hc
  simp only at hc
  obtain ⟨i, hmask, hget⟩ := applyMask_mem _ _ c hc
  rw [List.get?_map] at hmask
  cases hr : (List.range df.nrows).get? i with
  | none => rw [hr] at hmask; cases hmask
  | some j =>
    rw [hr] at hmask
    simp only [Option.map_some'] at hmask
    obtain ⟨hlt, hval⟩ := List.get?_eq_some.mp hr
    have hj : j = i := by rw [← hval, List.get_range]
    subst hj
    have hrow : rowComplete df j = true := by
      injection hmask
    unfold rowComplete at hrow
    have hcell := List.all_eq_true.mp hrow col0 hcol0
    rw [hget] at hcell
    simpa using hcell

theorem dropna_nrows_le (df : DataFrame) : (DataFrame.dropna df).nrows ≤ df.nrows := by
  unfold DataFrame.dropna
  unfold DataFrame.nrows
  cases hc : df.cols with
  | nil => simp
  | cons c rest =>
    simp only [List.map_cons, List.head?_cons, Option.map_some', Option.getD_some]
    exact applyMask_length_le _ _

theorem fillCol_noNulls (m : Cell) (hm : m.isSome = true) (cs : List Cell) :
    noNullsB (fillColWith m cs) = true := by
  unfold noNullsB fillColWith
  rw [List.all_eq_true]
  intro c hc
  obtain ⟨c0, _, rfl⟩ := List.mem_map.mp hc
  cases c0 with
  | none => exact hm
  | some v => rfl

theorem numlikeVals_eq_nil_of_all_none : ∀ cs : List Cell, (∀ c ∈ cs, c = none) →
    numlikeVals cs = [] := by
  intro cs
  induction cs with
  | nil => intro _; rfl
  | cons c rest ih =>
    intro h
    have hc : c = none := h c (List.mem_cons_self c rest)
    subst hc
    unfold numlikeVals at ih ⊢
    simp only [List.filterMap_cons]
    exact ih (fun x hx => h x (List.mem_cons_of_mem _ hx))

theorem medianCell_all_none (cs : List Cell) (h : numlikeVals cs = []) :
    medianCell cs = none := by
  unfold medianCell
  rw [h]
  rfl

theorem meanCell_all_none (cs : List Cell) (h : numlikeVals cs = []) :
    meanCell cs = none := by
  unfold meanCell vSum
  rw [h]
  simp only [List.foldl_nil, List.length_nil, Nat.cast_zero]
  unfold cDiv vDiv
  norm_num

theorem fillColWith_none_id : ∀ cs : List Cell, fillColWith none cs = cs := by
  intro cs
  induction cs with
  | nil => rfl
  | cons c rest ih =>
    unfold fillColWith at ih ⊢
    rw [List.map_cons, ih]
    cases c with
    | none => rfl
    | some v => rfl

/-- Claim C9 as amended: the median and mean strategies act on each numeric
column independently — every numeric column whose cells are all null or
finite (real numeric data, no infinities) and which holds at least one
finite value appears in the output with no nulls left, while an
entirely-null column passes through with its nulls intact (its median/mean
is NaN and `fillna(NaN)` is a no-op); after the mode strategy no nulls
remain in any column (the fallback 0 covers entirely-null columns); after
drop no nulls remain anywhere and the row count does not grow. -/
theorem missing_value_completeness_amended (df : DataFrame) :
    (∀ col ∈ df.cols, col.numeric = true → cleanNumColB col = true →
      ({ col with cells := fillColWith (medianCell col.cells) col.cells } : Column)
          ∈ (tratar_dados_faltantes df "mediana").cols ∧
        noNullsB (fillColWith (medianCell col.cells) col.cells) = true) ∧
    (∀ col ∈ df.cols, col.numeric = true → cleanNumColB col = true →
      ({ col with cells := fillColWith (meanCell col.cells) col.cells } : Column)
          ∈ (tratar_dados_faltantes df "media").cols ∧
        noNullsB (fillColWith (meanCell col.cells) col.cells) = true) ∧
    (∀ col ∈ df.cols, (∀ c ∈ col.cells, c = none) →
      fillColWith (medianCell col.cells) col.cells = col.cells ∧
      fillColWith (meanCell col.cells) col.cells = col.cells) ∧
    (∀ col ∈ (tratar_dados_faltantes df "moda").cols, noNullsB col.cells = true) ∧
    ((∀ col ∈ (tratar_dados_faltantes df "remover").cols, noNullsB col.cells = true) ∧
      (tratar_dados_faltantes df "remover").nrows ≤ df.nrows) := by
  have hmed : tratar_dados_faltantes df "mediana"
      = ⟨df.cols.map (fun col => if col.numeric then
          { col with cells := fillColWith (medianCell col.cells) col.cells } else col)⟩ := by
    unfold tratar_dados_faltantes
    rw [if_pos rfl]
    rfl
  have hmea : tratar_dados_faltantes df "media"
      = ⟨df.cols.map (fun col => if col.numeric then
          { col with cells := fillColWith (meanCell col.cells) col.cells } else col)⟩ := by
    unfold tratar_dados_faltantes
    rw [if_neg (by decide), if_pos rfl]
    rfl
  have hmod : tratar_dados_faltantes df "moda"
      = ⟨df.cols.map (fun col =>
          { col with
            cells := fillColWith (some ((modeVal col.cells).getD (.num 0))) col.cells })⟩ := by
    unfold tratar_dados_faltantes
    rw [if_neg (by decide), if_neg (by decide), if_pos rfl]
    rfl
  have hrem : tratar_dados_faltantes df "remover" = DataFrame.dropna df := by
    unfold tratar_dados_faltantes
    rw [if_neg (by decide), if_neg (by decide), if_neg (by decide), if_pos rfl]
    rfl
  refine ⟨?_, ?_, ?_, ?_, ?_, ?_⟩
  · intro col hcol hnum hclean
    constructor
    · rw [hmed]
      refine List.mem_map.mpr ⟨col, hcol, ?_⟩
      rw [if_pos hnum]
    · unfold cleanNumColB at hclean
      rw [Bool.and_eq_true] at hclean
      exact fillCol_noNulls _ (medianCell_isSome col.cells hclean.1 hclean.2) _
  · intro col hcol hnum hclean
    constructor
    · rw [hmea]
      refine List.mem_map.mpr ⟨col, hcol, ?_⟩
      rw [if_pos hnum]
    · unfold cleanNumColB at hclean
      rw [Bool.and_eq_true] at hclean
      exact fillCol_noNulls _ (meanCell_isSome col.cells hclean.1 hclean.2) _
  · intro col hcol hall
    have hnl : numlikeVals col.cells = [] :=
      numlikeVals_eq_nil_of_all_none col.cells hall
    constructor
    · rw [medianCell_all_none col.cells hnl]
      exact fillColWith_none_id col.cells
    · rw [meanCell_all_none col.cells hnl]
      exact fillColWith_none_id col.cells
  · intro col hcol
    rw [hmod] at hcol
    simp only [List.mem_map] at hcol
    obtain ⟨col0, h0, rfl⟩ := hcol
    exact fillCol_noNulls (some ((modeVal col0.cells).getD (.num 0))) rfl col0.cells
  · intro col hcol
    rw [hrem] at hcol
    exact dropna_noNulls df col hcol
  · rw [hrem]
    exact dropna_nrows_le df

/-- Counterexample to C9: a frame with one numeric, entirely-null column —
the median of the column is NaN, `fillna(NaN)` changes nothing, and the
null cell survives the median strategy, contradicting the claimed "no null
cells remain in any numeric column". -/
theorem missing_value_completeness_counterexample :
    tratar_dados_faltantes dfAllNull "mediana" = dfAllNull ∧
    (dfAllNull.cols.headD ⟨"", true, []⟩).numeric = true ∧
    noNullsB (dfAllNull.cols.headD ⟨"", true, []⟩).cells = false := by
  refine ⟨by decide, by decide, by decide⟩

/-- Witness for C9 (amended): in a frame holding a clean numeric column
next to a non-numeric one, the median strategy leaves the filled
renda_familiar column in the output with no nulls; and the entirely-null
column of `dfAllNull` passes through the median/mean fill unchanged. -/
theorem missing_value_completeness_amended_witness :
    (({ name := "renda_familiar", numeric := true,
        cells := fillColWith (medianCell [some (.num 100), none])
          [some (.num 100), none] } : Column)
        ∈ (tratar_dados_faltantes dfFaltantes "mediana").cols ∧
      noNullsB (fillColWith (medianCell [some (.num 100), none])
        [some (.num 100), none]) = true) ∧
    (fillColWith (medianCell [(none : Cell)]) [(none : Cell)] = [(none : Cell)] ∧
      fillColWith (meanCell [(none : Cell)]) [(none : Cell)] = [(none : Cell)]) :=
  ⟨(missing_value_completeness_amended dfFaltantes).1
      ⟨"renda_familiar", true, [some (.num 100), none]⟩ (by decide) (by decide) (by decide),
   (missing_value_completeness_amended dfAllNull).2.2.1
      ⟨"renda_familiar", true, [none]⟩ (by decide) (by decide)⟩
